import Mathlib

/-!
Verification of the RiskAgent risk-engine service.

Shallow embedding of the Python sources:
* `app/logic/risk_scoring.py`   — the 0-to-1-scale additive scoring engine
  (namespace `RiskScoring`);
* `app/logic/risk_calculator.py` — the 0-to-100-scale weighted-average scoring
  engine and the recommendation generator (namespace `RiskCalculator`);
* `app/routes.py`               — the evaluate endpoint orchestration
  (namespace `Routes`);
* `app/models.py`               — the stored-evaluation record and the JSON
  serialization of the explanations field (namespace `Models`).

Numeric fields are embedded as rationals: every literal in the sources is a
short decimal fraction, and all comparisons and sums in the claims are exact
at these values.
-/

/-- ASCII lowercase of a string, character by character: the embedding of the
Python `str.lower()` calls in both scoring modules. All strings those calls
are compared against ("oil", "gas", "energy", the sector table keys,
"retail", "manufacturing", "technology", "finance") are pure ASCII, so the
ASCII mapping decides every comparison the code makes. -/
def pyLower (s : String) : String := String.mk (s.data.map Char.toLower)

/-- The request data for one risk evaluation: the parameters of
`compute_risk_score` in both scoring modules, and the fields of the
`RiskRequest` pydantic model in `app/routes.py`. `additional_factors`
is a string-keyed mapping of arbitrary scalars; scalars are embedded as
strings since no code path ever reads the values. -/
structure RiskInput where
  user_id : String
  company_name : String
  debt_to_equity : ℚ
  net_profit : ℚ
  negative_news_score : ℚ
  late_payments_rate : ℚ := 0
  sector : String := "general"
  additional_factors : List (String × String) := []

namespace RiskScoring

/-- Lines 41 to 78 of `app/logic/risk_scoring.py`: the five additive rules,
applied in source order, each adding its contribution to `score` and
appending its explanation. The additional-factors loop (lines 74 to 78)
only logs and is omitted from the pure value. Returns the pre-clamp score
and the explanation list. -/
def rules_result (inp : RiskInput) : ℚ × List String :=
  let score : ℚ := 0
  let explanations : List String := []
  -- Process debt to equity ratio
  let (score, explanations) :=
    if inp.debt_to_equity > 2 then
      (score + 0.3, explanations ++ ["High debt-to-equity ratio"])
    else (score, explanations)
  -- Process net profit
  let (score, explanations) :=
    if inp.net_profit < 0 then
      (score + 0.2, explanations ++ ["Negative profitability"])
    else (score, explanations)
  -- Process negative news
  let (score, explanations) :=
    if inp.negative_news_score > 0.5 then
      (score + 0.2, explanations ++ ["Significant negative news"])
    else (score, explanations)
  -- Process late payments
  let (score, explanations) :=
    if inp.late_payments_rate > 0.1 then
      (score + 0.15, explanations ++ ["High late payments rate"])
    else (score, explanations)
  -- Process sector-specific risks
  let (score, explanations) :=
    if pyLower inp.sector ∈ (["oil", "gas", "energy"] : List String) then
      (score + 0.1, explanations ++ ["High-volatility sector"])
    else (score, explanations)
  (score, explanations)

/-- Lines 41 to 95 of `app/logic/risk_scoring.py`: run the additive rules,
cap the score at 1.0, derive the risk level, and return
`(score, risk_level, explanations)`. -/
def compute_risk_score (inp : RiskInput) : ℚ × String × List String :=
  let (score, explanations) := rules_result inp
  -- Cap the score at 1.0
  let score := if score > 1 then 1 else score
  -- Determine risk level
  let risk_level :=
    if score ≥ 0.7 then "High Risk"
    else if score ≥ 0.4 then "Medium Risk"
    else "Low Risk"
  (score, risk_level, explanations)

end RiskScoring

/-- Python `str.capitalize()`: first character upper-cased, the rest
lower-cased (ASCII mapping, as in `pyLower`). Used by the sector
explanation strings of `app/logic/risk_calculator.py`. -/
def pyCapitalize (s : String) : String :=
  match s.data with
  | [] => ""
  | c :: cs => String.mk (c.toUpper :: cs.map Char.toLower)

namespace RiskCalculator

/-- Lines 15 to 20 of `app/logic/risk_calculator.py`: the `WEIGHTS` table. -/
def WEIGHTS : List (String × ℚ) :=
  [("debt_to_equity", 0.30), ("net_profit", 0.25),
   ("negative_news", 0.20), ("late_payments", 0.25)]

/-- Lines 23 to 37 of `app/logic/risk_calculator.py`: the
`SECTOR_ADJUSTMENTS` multiplier table. -/
def SECTOR_ADJUSTMENTS : List (String × ℚ) :=
  [("technology", 1.0), ("healthcare", 0.9), ("finance", 1.2),
   ("retail", 1.1), ("manufacturing", 1.05), ("energy", 1.3),
   ("oil", 1.3), ("gas", 1.3), ("real_estate", 1.15),
   ("telecommunications", 0.95), ("utilities", 0.85),
   ("consumer_goods", 1.0), ("general", 1.0)]

/-- Lines 123 to 145 of `app/logic/risk_calculator.py`: the
debt-to-equity factor, returned together with the explanation the Python
version appends to its `explanations` argument. -/
def calculate_debt_to_equity_factor (debt_to_equity : ℚ) : ℚ × String :=
  if debt_to_equity ≤ 1.0 then
    (0.2, "Debt-to-equity ratio is within healthy range")
  else if debt_to_equity ≤ 2.0 then
    (0.5, "Debt-to-equity ratio indicates moderate financial leverage")
  else if debt_to_equity ≤ 3.0 then
    (0.7, "High debt-to-equity ratio increases financial risk")
  else
    (1.0, "Very high debt-to-equity ratio indicates significant financial leverage")

/-- Lines 147 to 172 of `app/logic/risk_calculator.py`: the net-profit
factor, with its appended explanation. -/
def calculate_net_profit_factor (net_profit : ℚ) : ℚ × String :=
  if net_profit > 500000 then
    (0.1, "Strong positive net profit indicates excellent financial health")
  else if net_profit > 100000 then
    (0.3, "Positive net profit indicates good financial health")
  else if net_profit > 0 then
    (0.5, "Modest positive net profit")
  else if net_profit > -100000 then
    (0.7, "Negative net profit shows concerning financial performance")
  else
    (1.0, "Significant losses indicate serious financial challenges")

/-- Lines 174 to 196 of `app/logic/risk_calculator.py`: the negative-news
factor, with its appended explanation. -/
def calculate_negative_news_factor (negative_news_score : ℚ) : ℚ × String :=
  if negative_news_score ≤ 0.2 then
    (0.2, "Low negative news coverage")
  else if negative_news_score ≤ 0.4 then
    (0.5, "Moderate negative news coverage")
  else if negative_news_score ≤ 0.6 then
    (0.7, "Negative press coverage may impact business reputation")
  else
    (1.0, "High negative news coverage suggests significant reputational risk")

/-- Lines 198 to 220 of `app/logic/risk_calculator.py`: the late-payments
factor, with its appended explanation. -/
def calculate_late_payments_factor (late_payments_rate : ℚ) : ℚ × String :=
  if late_payments_rate ≤ 0.05 then
    (0.1, "Low rate of late payments suggests good cash flow management")
  else if late_payments_rate ≤ 0.1 then
    (0.4, "Moderate rate of late payments")
  else if late_payments_rate ≤ 0.2 then
    (0.7, "Elevated late payments rate may indicate cash flow issues")
  else
    (1.0, "High rate of late payments suggests cash flow problems")

/-- Lines 39 to 121 of `app/logic/risk_calculator.py`: the weighted-average
0-to-100-scale scoring engine. The four factor calls append their
explanations in order; the weighted base score is divided by the sum of the
weights; the sector multiplier is looked up with default
`SECTOR_ADJUSTMENTS["general"] = 1.0` and chooses the sector explanation;
the final score is scaled to 0-100 and capped at 100; the
additional-factors loop (lines 106 to 109) only logs. -/
def compute_risk_score (inp : RiskInput) : ℚ × String × List String :=
  let (debt_factor, e1) := calculate_debt_to_equity_factor inp.debt_to_equity
  let (profit_factor, e2) := calculate_net_profit_factor inp.net_profit
  let (news_factor, e3) := calculate_negative_news_factor inp.negative_news_score
  let (payments_factor, e4) := calculate_late_payments_factor inp.late_payments_rate
  let explanations := [e1, e2, e3, e4]
  let base_score :=
    ((WEIGHTS.lookup "debt_to_equity").getD 0 * debt_factor
      + (WEIGHTS.lookup "net_profit").getD 0 * profit_factor
      + (WEIGHTS.lookup "negative_news").getD 0 * news_factor
      + (WEIGHTS.lookup "late_payments").getD 0 * payments_factor) /
    (WEIGHTS.map Prod.snd).sum
  let sector_key := pyLower inp.sector
  let sector_multiplier :=
    (SECTOR_ADJUSTMENTS.lookup sector_key).getD
      ((SECTOR_ADJUSTMENTS.lookup "general").getD 1.0)
  let explanations := explanations ++
    [if sector_multiplier > 1.0 then
        pyCapitalize inp.sector ++ " sector has higher than average baseline risk"
     else if sector_multiplier < 1.0 then
        pyCapitalize inp.sector ++ " sector has lower than average baseline risk"
     else
        pyCapitalize inp.sector ++ " sector has moderate baseline risk"]
  let final_score := base_score * sector_multiplier * 100
  -- Cap the score at 100
  let final_score := if final_score > 100 then (100.0 : ℚ) else final_score
  -- Determine risk level
  let risk_level :=
    if final_score ≥ 71 then "High Risk"
    else if final_score ≥ 41 then "Medium Risk"
    else "Low Risk"
  (final_score, risk_level, explanations)

/-- Lines 222 to 258 of `app/logic/risk_calculator.py`: the recommendation
generator, mapping `(risk_level, score, sector)` to the ordered
recommendation list. -/
def get_risk_recommendations (risk_level : String) (score : ℚ) (sector : String) :
    List String :=
  if risk_level = "High Risk" then
    ["Conduct immediate comprehensive financial review",
     "Develop debt reduction strategy",
     "Implement stricter accounts receivable policies"]
    ++ (if pyLower sector ∈ (["retail", "manufacturing"] : List String) then
          ["Review inventory management to improve cash flow"]
        else [])
    ++ (if score > 85 then
          ["Consider external financial expertise/restructuring"]
        else [])
  else if risk_level = "Medium Risk" then
    ["Quarterly financial health monitoring recommended",
     "Develop action plan for identified risk areas"]
    ++ (if pyLower sector ∈ (["technology", "finance"] : List String) then
          ["Evaluate competitive positioning in volatile market"]
        else [])
  else  -- Low Risk
    ["Maintain current financial practices",
     "Annual risk reassessment recommended"]

end RiskCalculator

namespace Routes

/-- The `RiskResponse` pydantic model of `app/routes.py` (lines 48 to 54):
the body of a successful evaluate response. -/
structure RiskResponse where
  score : ℚ
  explanations : List String
  recommendation : String
  recommendations : List String
  evaluation_id : Option Nat
  deriving DecidableEq

/-- Lines 57 to 117 of `app/routes.py`: the success path of the
`POST /api/evaluate` handler. It calls `compute_risk_score` imported from
`app.logic.risk_calculator` (line 12), then `get_risk_recommendations`,
then attempts to store the evaluation. The storage step sits in its own
try/except: `storage` is `some id` when the insert succeeds and yields
record id `id`, and `none` when the insert raises, in which case the
handler logs, rolls back, and sets `evaluation_id = None`. Either way the
handler returns the assessment as a success response. -/
def evaluate_risk (req : RiskInput) (storage : Option Nat) : RiskResponse :=
  let (score, risk_level, explanations) := RiskCalculator.compute_risk_score req
  let recommendations :=
    RiskCalculator.get_risk_recommendations risk_level score req.sector
  let evaluation_id := storage
  { score := score, explanations := explanations, recommendation := risk_level,
    recommendations := recommendations, evaluation_id := evaluation_id }

end Routes

/-- Sanity check mirroring the high-risk scenario of
`tests/test_logic.py`. -/
theorem additive_high_risk_scenario :
    RiskScoring.compute_risk_score
      { user_id := "test_user", company_name := "High Risk Corp",
        debt_to_equity := 3, net_profit := -5000,
        negative_news_score := 0.9, late_payments_rate := 0.2,
        sector := "general" }
    = (0.85, "High Risk",
       ["High debt-to-equity ratio", "Negative profitability",
        "Significant negative news", "High late payments rate"]) := by
  with_unfolding_all decide

/-- Sanity check mirroring the low-risk scenario of
`tests/test_logic.py`. -/
theorem additive_low_risk_scenario :
    RiskScoring.compute_risk_score
      { user_id := "test_user", company_name := "Low Risk Corp",
        debt_to_equity := 1, net_profit := 5000,
        negative_news_score := 0.1, late_payments_rate := 0.05,
        sector := "general" }
    = (0, "Low Risk", []) := by
  with_unfolding_all decide

namespace Models

/-- One hexadecimal digit character (lower case), for `\u00XX` escapes. -/
def hexDigitChar (n : Nat) : Char :=
  if n < 10 then Char.ofNat (48 + n) else Char.ofNat (87 + n)

/-- Numeric value of a hexadecimal digit character. -/
def hexVal (c : Char) : Nat :=
  if c.toNat ≥ 97 then c.toNat - 87
  else if c.toNat ≥ 65 then c.toNat - 55
  else c.toNat - 48

/-- Modelled from the spec: the JSON encoding of one character inside a
string literal, as the Python standard library `json.dumps` produces it
for the `explanations` setter of `app/models.py` (quote and backslash
escaped, the short escapes for backspace, tab, newline, form feed and
carriage return, `\u00XX` for the remaining control characters). Non-ASCII
characters are kept literal (the `ensure_ascii=False` representation,
which round-trips identically to the default `\uXXXX` representation). -/
def escChar (c : Char) : List Char :=
  if c = '"' then ['\\', '"']
  else if c = '\\' then ['\\', '\\']
  else if c = '\x08' then ['\\', 'b']
  else if c = '\t' then ['\\', 't']
  else if c = '\n' then ['\\', 'n']
  else if c = '\x0c' then ['\\', 'f']
  else if c = '\r' then ['\\', 'r']
  else if c.toNat < 32 then
    ['\\', 'u', '0', '0', hexDigitChar (c.toNat / 16), hexDigitChar (c.toNat % 16)]
  else [c]

/-- A JSON string literal: opening quote, escaped characters, closing
quote. -/
def encodeString (s : String) : List Char :=
  '"' :: (s.data.map escChar).flatten ++ ['"']

/-- The elements of a JSON array of strings joined by `", "`, exactly as
`", ".join` produces inside `json.dumps` of a list. -/
def sepElems : List String → List Char
  | [] => []
  | [s] => encodeString s
  | s :: rest => encodeString s ++ ',' :: ' ' :: sepElems rest

/-- Modelled from the spec: Python `json.dumps` restricted to lists of
strings, the only values the `explanations` setter of `app/models.py`
serializes. -/
def dumps (v : List String) : String :=
  String.mk ('[' :: sepElems v ++ [']'])

/-- Parse the remainder of a JSON string literal (after its opening
quote): collected characters and the input following the closing quote.
`none` models a `json.JSONDecodeError`. -/
def parseStrAux : List Char → Option (List Char × List Char)
  | [] => none
  | c :: r =>
    if c = '"' then some ([], r)
    else if c = '\\' then
      match r with
      | [] => none
      | e :: r2 =>
        if e = '"' then (parseStrAux r2).map (fun p => ('"' :: p.1, p.2))
        else if e = '\\' then (parseStrAux r2).map (fun p => ('\\' :: p.1, p.2))
        else if e = 'b' then (parseStrAux r2).map (fun p => ('\x08' :: p.1, p.2))
        else if e = 't' then (parseStrAux r2).map (fun p => ('\t' :: p.1, p.2))
        else if e = 'n' then (parseStrAux r2).map (fun p => ('\n' :: p.1, p.2))
        else if e = 'f' then (parseStrAux r2).map (fun p => ('\x0c' :: p.1, p.2))
        else if e = 'r' then (parseStrAux r2).map (fun p => ('\r' :: p.1, p.2))
        else if e = 'u' then
          match r2 with
          | h3 :: h2 :: h1 :: h0 :: r3 =>
            (parseStrAux r3).map (fun p =>
              (Char.ofNat (((hexVal h3 * 16 + hexVal h2) * 16 + hexVal h1) * 16
                  + hexVal h0) :: p.1, p.2))
          | _ => none
        else none
    else (parseStrAux r).map (fun p => (c :: p.1, p.2))

/-- Parse the items of a JSON array of string literals in the exact shape
`dumps` emits (elements separated by `", "`, closed by `]` at the end of
input). The fuel argument bounds the number of items. -/
def parseItems : Nat → List Char → Option (List (List Char))
  | 0, _ => none
  | fuel+1, l =>
    match l with
    | '"' :: r =>
      match parseStrAux r with
      | none => none
      | some (s, rem) =>
        match rem with
        | [']'] => some [s]
        | ',' :: ' ' :: r2 => (parseItems fuel r2).map (fun w => s :: w)
        | _ => none
    | _ => none

/-- Modelled from the spec: Python `json.loads` restricted to the output
grammar of `dumps` (a JSON array of string literals). `none` models a
raised `json.JSONDecodeError`. -/
def loads (s : String) : Option (List String) :=
  match s.data with
  | ['[', ']'] => some []
  | '[' :: r => (parseItems (r.length + 1) r).map (fun w => w.map String.mk)
  | _ => none

/-- The `RiskEvaluation` SQLAlchemy model of `app/models.py` (lines 13 to
48): one stored evaluation row. The `explanations_json` Text column is
`none` when never assigned (SQL NULL); `created_at` is the server-assigned
timestamp. -/
structure RiskEvaluation where
  id : Option Nat := none
  user_id : String := ""
  company_name : String := ""
  sector : String := ""
  debt_to_equity : ℚ := 0
  net_profit : ℚ := 0
  negative_news_score : ℚ := 0
  late_payments_rate : ℚ := 0
  risk_score : ℚ := 0
  recommendation : String := ""
  explanations_json : Option String := none
  created_at : Option String := none

/-- Lines 35 to 40 of `app/models.py`: the `explanations` property getter.
Python truthiness: a `None` or empty Text column yields `[]`; otherwise
the column is deserialized with `json.loads` (`none` models a raised
decode error). -/
def RiskEvaluation.explanations (r : RiskEvaluation) : Option (List String) :=
  match r.explanations_json with
  | some s => if s ≠ "" then loads s else some []
  | none => some []

/-- Lines 42 to 45 of `app/models.py`: the `explanations` property setter,
serializing the list with `json.dumps`. -/
def RiskEvaluation.set_explanations (r : RiskEvaluation) (value : List String) :
    RiskEvaluation :=
  { r with explanations_json := some (dumps value) }

end Models

namespace Models

theorem hexVal_hexDigitChar : ∀ n : Fin 16, hexVal (hexDigitChar n.val) = n.val := by
  decide

theorem parseStrAux_escChar (c : Char) (l : List Char) :
    parseStrAux (escChar c ++ l) = (parseStrAux l).map (fun p => (c :: p.1, p.2)) := by
  by_cases h1 : c = '"'
  · subst h1
    have e : escChar '"' ++ l = '\\' :: '"' :: l := by simp [escChar]
    rw [e, parseStrAux.eq_def]; simp
  by_cases h2 : c = '\\'
  · subst h2
    have e : escChar '\\' ++ l = '\\' :: '\\' :: l := by simp [escChar]
    rw [e, parseStrAux.eq_def]; simp
  by_cases h3 : c = '\x08'
  · subst h3
    have e : escChar '\x08' ++ l = '\\' :: 'b' :: l := by simp [escChar]
    rw [e, parseStrAux.eq_def]; simp
  by_cases h4 : c = '\t'
  · subst h4
    have e : escChar '\t' ++ l = '\\' :: 't' :: l := by simp [escChar]
    rw [e, parseStrAux.eq_def]; simp
  by_cases h5 : c = '\n'
  · subst h5
    have e : escChar '\n' ++ l = '\\' :: 'n' :: l := by simp [escChar]
    rw [e, parseStrAux.eq_def]; simp
  by_cases h6 : c = '\x0c'
  · subst h6
    have e : escChar '\x0c' ++ l = '\\' :: 'f' :: l := by simp [escChar]
    rw [e, parseStrAux.eq_def]; simp
  by_cases h7 : c = '\r'
  · subst h7
    have e : escChar '\r' ++ l = '\\' :: 'r' :: l := by simp [escChar]
    rw [e, parseStrAux.eq_def]; simp
  by_cases h8 : c.toNat < 32
  · have e : escChar c ++ l = '\\' :: 'u' :: '0' :: '0' ::
        hexDigitChar (c.toNat / 16) :: hexDigitChar (c.toNat % 16) :: l := by
      simp [escChar, h1, h2, h3, h4, h5, h6, h7, h8]
    have hval : ((hexVal '0' * 16 + hexVal '0') * 16
        + hexVal (hexDigitChar (c.toNat / 16))) * 16
        + hexVal (hexDigitChar (c.toNat % 16)) = c.toNat := by
      have hd1 : hexVal (hexDigitChar (c.toNat / 16)) = c.toNat / 16 :=
        hexVal_hexDigitChar ⟨c.toNat / 16, by omega⟩
      have hd0 : hexVal (hexDigitChar (c.toNat % 16)) = c.toNat % 16 :=
        hexVal_hexDigitChar ⟨c.toNat % 16, by omega⟩
      have h0v : hexVal '0' = 0 := by decide
      rw [hd1, hd0, h0v]
      omega
    have hchar : Char.ofNat (((hexVal '0' * 16 + hexVal '0') * 16
        + hexVal (hexDigitChar (c.toNat / 16))) * 16
        + hexVal (hexDigitChar (c.toNat % 16))) = c := by
      rw [hval, Char.ofNat_toNat]
    rw [e, parseStrAux.eq_def]
    simp [hchar]
  · have e : escChar c ++ l = c :: l := by
      simp [escChar, h1, h2, h3, h4, h5, h6, h7, h8]
    rw [e, parseStrAux.eq_def]
    simp [h1, h2]

theorem parseStrAux_encode (s : List Char) (rest : List Char) :
    parseStrAux ((s.map escChar).flatten ++ '"' :: rest) = some (s, rest) := by
  induction s with
  | nil =>
    rw [List.map_nil, List.flatten_nil, List.nil_append, parseStrAux.eq_def]
    simp
  | cons c cs ih =>
    simp only [List.map_cons, List.flatten_cons, List.append_assoc]
    rw [parseStrAux_escChar, ih]
    simp

theorem parseItems_encode :
    ∀ (v : List String) (fuel : Nat), v ≠ [] → v.length < fuel →
      parseItems fuel (sepElems v ++ [']']) = some (v.map String.data) := by
  intro v
  induction v with
  | nil => intro fuel h _; exact absurd rfl h
  | cons s v' ih =>
    intro fuel _ hlen
    cases fuel with
    | zero => exact absurd hlen (Nat.not_lt_zero _)
    | succ f =>
      cases v' with
      | nil =>
        show parseItems (f+1) (encodeString s ++ [']']) = some [s.data]
        have e : encodeString s ++ [']']
            = '"' :: ((s.data.map escChar).flatten ++ '"' :: [']']) := by
          simp [encodeString]
        rw [e, parseItems.eq_def]
        simp [parseStrAux_encode]
      | cons s2 v2 =>
        have e : sepElems (s :: s2 :: v2) ++ [']']
            = '"' :: ((s.data.map escChar).flatten
                ++ '"' :: (',' :: ' ' :: (sepElems (s2 :: v2) ++ [']']))) := by
          simp [sepElems, encodeString]
        rw [e, parseItems.eq_def]
        have hrec := ih f (by simp) (by simp at hlen ⊢; omega)
        simp [parseStrAux_encode, hrec]

theorem sepElems_length (v : List String) : v.length ≤ (sepElems v).length := by
  induction v with
  | nil => simp [sepElems]
  | cons s v' ih =>
    cases v' with
    | nil => simp [sepElems, encodeString]
    | cons s2 v2 =>
      have e : sepElems (s :: s2 :: v2)
          = encodeString s ++ ',' :: ' ' :: sepElems (s2 :: v2) := rfl
      rw [e]
      simp only [List.length_cons, List.length_append, encodeString] at ih ⊢
      omega

theorem loads_dumps (v : List String) : loads (dumps v) = some v := by
  cases v with
  | nil => rfl
  | cons s v' =>
    have hdata : (dumps (s :: v')).data = '[' :: (sepElems (s :: v') ++ [']']) := rfl
    have hsep : ∃ t, sepElems (s :: v') = '"' :: t := by
      cases v' with
      | nil => exact ⟨_, rfl⟩
      | cons b w3 => exact ⟨_, rfl⟩
    obtain ⟨t, ht⟩ := hsep
    have hr : (dumps (s :: v')).data = '[' :: '"' :: (t ++ [']']) := by
      rw [hdata, ht]; simp
    have harg : '"' :: (t ++ [']']) = sepElems (s :: v') ++ [']'] := by
      rw [ht]; simp
    have hfuel : (s :: v').length < (sepElems (s :: v') ++ [']']).length + 1 := by
      have h1 := sepElems_length (s :: v')
      simp only [List.length_append, List.length_cons] at h1 ⊢
      omega
    have hmk : ∀ x : String, String.mk x.data = x := fun x => rfl
    rw [loads.eq_def, hr]
    show (parseItems (('"' :: (t ++ [']'])).length + 1)
        ('"' :: (t ++ [']']))).map (fun w => w.map String.mk) = some (s :: v')
    rw [harg]
    rw [parseItems_encode (s :: v') ((sepElems (s :: v') ++ [']']).length + 1)
      (by simp) hfuel]
    simp [List.map_map, Function.comp_def, hmk]

end Models

namespace RiskScoring

/-- Normal form of the additive rules: the pre-clamp score is the sum of the
five conditional contributions and the explanation list is the matching
concatenation, in the fixed source order. -/
theorem rules_result_eq (inp : RiskInput) :
    rules_result inp
      = ((if inp.debt_to_equity > 2 then (0.3:ℚ) else 0)
          + (if inp.net_profit < 0 then (0.2:ℚ) else 0)
          + (if inp.negative_news_score > 0.5 then (0.2:ℚ) else 0)
          + (if inp.late_payments_rate > 0.1 then (0.15:ℚ) else 0)
          + (if pyLower inp.sector ∈ (["oil", "gas", "energy"] : List String)
              then (0.1:ℚ) else 0),
        (if inp.debt_to_equity > 2 then ["High debt-to-equity ratio"] else [])
          ++ (if inp.net_profit < 0 then ["Negative profitability"] else [])
          ++ (if inp.negative_news_score > 0.5 then ["Significant negative news"] else [])
          ++ (if inp.late_payments_rate > 0.1 then ["High late payments rate"] else [])
          ++ (if pyLower inp.sector ∈ (["oil", "gas", "energy"] : List String)
              then ["High-volatility sector"] else [])) := by
  unfold rules_result
  split_ifs <;> norm_num

/-- The additive engine score is between 0 and 1 for every input. -/
theorem score_bounds_aux (inp : RiskInput) :
    0 ≤ (compute_risk_score inp).1 ∧ (compute_risk_score inp).1 ≤ 1 := by
  have h := rules_result_eq inp
  simp only [compute_risk_score, h]
  split_ifs <;> norm_num

end RiskScoring

/-- C2: for every RiskInput the additive Scoring Engine score equals the sum
of exactly the triggered rule contributions (0.30 for debtToEquity > 2.0,
0.20 for netProfit < 0, 0.20 for negativeNewsScore > 0.5, 0.15 for
latePaymentsRate > 0.1, 0.10 for a lower-cased sector in oil/gas/energy,
all comparisons strict), clamped to 1.0 when the sum exceeds 1.0, and its
explanations list is exactly the corresponding strings in the fixed rule
order. -/
theorem C2_additive_score_and_explanations (inp : RiskInput) :
    (RiskScoring.compute_risk_score inp).1
      = (let sum := (if inp.debt_to_equity > 2 then (0.3:ℚ) else 0)
              + (if inp.net_profit < 0 then (0.2:ℚ) else 0)
              + (if inp.negative_news_score > 0.5 then (0.2:ℚ) else 0)
              + (if inp.late_payments_rate > 0.1 then (0.15:ℚ) else 0)
              + (if pyLower inp.sector ∈ (["oil", "gas", "energy"] : List String)
                  then (0.1:ℚ) else 0)
         if sum > 1 then 1 else sum)
    ∧ (RiskScoring.compute_risk_score inp).2.2
      = (if inp.debt_to_equity > 2 then ["High debt-to-equity ratio"] else [])
        ++ (if inp.net_profit < 0 then ["Negative profitability"] else [])
        ++ (if inp.negative_news_score > 0.5 then ["Significant negative news"] else [])
        ++ (if inp.late_payments_rate > 0.1 then ["High late payments rate"] else [])
        ++ (if pyLower inp.sector ∈ (["oil", "gas", "energy"] : List String)
            then ["High-volatility sector"] else []) := by
  have h := RiskScoring.rules_result_eq inp
  simp only [RiskScoring.compute_risk_score, h]
  exact ⟨trivial, trivial⟩

/-- C3: for every well-formed RiskInput (arbitrary rational numeric fields,
arbitrary strings, so out-of-range semantic values are accepted rather than
rejected) the additive Scoring Engine score satisfies 0 ≤ score ≤ 1; the
upper bound is enforced by the final clamp. -/
theorem C3_score_bounds (inp : RiskInput) :
    0 ≤ (RiskScoring.compute_risk_score inp).1
    ∧ (RiskScoring.compute_risk_score inp).1 ≤ 1 :=
  RiskScoring.score_bounds_aux inp

/-- C4: the risk level returned by the additive Scoring Engine is a pure
function of the returned score with exhaustive, mutually exclusive bands:
High Risk exactly when score ≥ 0.7, Medium Risk exactly when
0.4 ≤ score < 0.7, Low Risk exactly when score < 0.4. -/
theorem C4_risk_level_bands (inp : RiskInput) :
    ((RiskScoring.compute_risk_score inp).2.1 = "High Risk"
      ↔ (RiskScoring.compute_risk_score inp).1 ≥ 0.7)
    ∧ ((RiskScoring.compute_risk_score inp).2.1 = "Medium Risk"
      ↔ 0.4 ≤ (RiskScoring.compute_risk_score inp).1
        ∧ (RiskScoring.compute_risk_score inp).1 < 0.7)
    ∧ ((RiskScoring.compute_risk_score inp).2.1 = "Low Risk"
      ↔ (RiskScoring.compute_risk_score inp).1 < 0.4) := by
  rcases hrr : RiskScoring.rules_result inp with ⟨s, ex⟩
  simp only [RiskScoring.compute_risk_score, hrr]
  split_ifs <;> simp_all <;> linarith

/-- C7: two RiskInputs identical except for sector "oil" versus
"technology" give pre-clamp scores that differ by exactly 0.10 in favor of
oil, and final scores with score(oil) ≥ score(technology). -/
theorem C7_sector_sensitivity (inp : RiskInput) :
    (RiskScoring.rules_result { inp with sector := "oil" }).1
      = (RiskScoring.rules_result { inp with sector := "technology" }).1 + 0.1
    ∧ (RiskScoring.compute_risk_score { inp with sector := "oil" }).1
      ≥ (RiskScoring.compute_risk_score { inp with sector := "technology" }).1 := by
  have ho := RiskScoring.rules_result_eq { inp with sector := "oil" }
  have ht := RiskScoring.rules_result_eq { inp with sector := "technology" }
  have hoil : pyLower "oil" ∈ (["oil", "gas", "energy"] : List String) := by decide
  have htech : pyLower "technology" ∉ (["oil", "gas", "energy"] : List String) := by
    decide
  dsimp only at ho ht
  simp only [hoil, htech, if_true, if_false, ite_true, ite_false,
    not_false_eq_true, add_zero] at ho ht
  simp only [RiskScoring.compute_risk_score, ho, ht]
  clear ho ht
  split_ifs <;> (try norm_num) <;> linarith

/-- C8: the additionalFactors mapping has no effect on either scoring
engine: replacing it by any other mapping leaves score, risk level and
explanations unchanged, for the additive engine and for the weighted
0-to-100 engine alike. -/
theorem C8_additional_factors_no_effect (inp : RiskInput)
    (f : List (String × String)) :
    RiskScoring.compute_risk_score { inp with additional_factors := f }
      = RiskScoring.compute_risk_score inp
    ∧ RiskCalculator.compute_risk_score { inp with additional_factors := f }
      = RiskCalculator.compute_risk_score inp :=
  ⟨rfl, rfl⟩

/-- C6: when the storage step fails (modelled by `storage = none`) the
evaluate handler still returns the full assessment as a success response —
score, explanations, risk level and recommendations are exactly the
computed ones — with `evaluation_id` set to the absent marker `none`; the
response agrees with the storage-success response in every field except
`evaluation_id`. -/
theorem C6_storage_failure_isolated (req : RiskInput) :
    (Routes.evaluate_risk req none).score = (RiskCalculator.compute_risk_score req).1
    ∧ (Routes.evaluate_risk req none).explanations
        = (RiskCalculator.compute_risk_score req).2.2
    ∧ (Routes.evaluate_risk req none).recommendation
        = (RiskCalculator.compute_risk_score req).2.1
    ∧ (Routes.evaluate_risk req none).recommendations
        = RiskCalculator.get_risk_recommendations
            (RiskCalculator.compute_risk_score req).2.1
            (RiskCalculator.compute_risk_score req).1 req.sector
    ∧ (Routes.evaluate_risk req none).evaluation_id = none
    ∧ ∀ k : Nat, Routes.evaluate_risk req none
        = { Routes.evaluate_risk req (some k) with evaluation_id := none } := by
  rcases h : RiskCalculator.compute_risk_score req with ⟨s, lvl, ex⟩
  simp [Routes.evaluate_risk, h]

/-- C1 counterexample: at the documented example request (debtToEquity 2.5,
netProfit -1000, negativeNewsScore 0.8, latePaymentsRate 0.2, sector
technology) the evaluate route returns score 76 — the 0-to-100 weighted
engine value — while the 0-to-1 additive engine of
`app/logic/risk_scoring.py` returns 0.85, so the route does not compute
the additive engine output. -/
theorem C1_route_not_additive_counterexample :
    (Routes.evaluate_risk
        { user_id := "user123", company_name := "Acme Corp",
          debt_to_equity := 2.5, net_profit := -1000,
          negative_news_score := 0.8, late_payments_rate := 0.2,
          sector := "technology", additional_factors := [] } (some 1)).score = 76
    ∧ (RiskScoring.compute_risk_score
        { user_id := "user123", company_name := "Acme Corp",
          debt_to_equity := 2.5, net_profit := -1000,
          negative_news_score := 0.8, late_payments_rate := 0.2,
          sector := "technology", additional_factors := [] }).1 = 0.85
    ∧ (Routes.evaluate_risk
        { user_id := "user123", company_name := "Acme Corp",
          debt_to_equity := 2.5, net_profit := -1000,
          negative_news_score := 0.8, late_payments_rate := 0.2,
          sector := "technology", additional_factors := [] } (some 1)).score
      ≠ (RiskScoring.compute_risk_score
        { user_id := "user123", company_name := "Acme Corp",
          debt_to_equity := 2.5, net_profit := -1000,
          negative_news_score := 0.8, late_payments_rate := 0.2,
          sector := "technology", additional_factors := [] }).1 := by
  with_unfolding_all decide

/-- C1 amended: the scoring computation reachable through the evaluate
route is the 0-to-100 weighted-average engine of
`app/logic/risk_calculator.py` (imported by `app/routes.py` line 12), not
the 0-to-1 additive engine: for every well-formed request the returned
(score, riskLevel, explanations) triple equals the weighted engine output
on the same inputs. -/
theorem C1_route_refines_weighted_calculator (req : RiskInput)
    (storage : Option Nat) :
    (Routes.evaluate_risk req storage).score
        = (RiskCalculator.compute_risk_score req).1
    ∧ (Routes.evaluate_risk req storage).recommendation
        = (RiskCalculator.compute_risk_score req).2.1
    ∧ (Routes.evaluate_risk req storage).explanations
        = (RiskCalculator.compute_risk_score req).2.2 := by
  rcases h : RiskCalculator.compute_risk_score req with ⟨s, lvl, ex⟩
  simp [Routes.evaluate_risk, h]

/-- C5 counterexample: the evaluate route can return the restructuring
recommendation, because the route is wired to the 0-to-100 weighted engine:
at this input the route computes score 100 and High Risk, so the
`score > 85` branch of the recommendation generator fires. -/
theorem C5_restructuring_reachable_counterexample :
    "Consider external financial expertise/restructuring"
      ∈ (Routes.evaluate_risk
          { user_id := "u1", company_name := "Deep Risk Corp",
            debt_to_equity := 4, net_profit := -200000,
            negative_news_score := 0.9, late_payments_rate := 0.3,
            sector := "energy", additional_factors := [] } none).recommendations := by
  with_unfolding_all decide

/-- For any score at most 1 — in particular any score of the additive
engine — the restructuring recommendation is never produced, whatever the
risk level and sector. -/
theorem restructuring_not_mem_of_le_one (lvl : String) (s : ℚ) (sec : String)
    (hs : s ≤ 1) :
    "Consider external financial expertise/restructuring"
      ∉ RiskCalculator.get_risk_recommendations lvl s sec := by
  unfold RiskCalculator.get_risk_recommendations
  split_ifs <;> simp_all <;> linarith

/-- C5 amended: the `score > 85` branch is unreachable for scores produced
by the additive 0-to-1 Scoring Engine specified in the 4.1 algorithm: for
every RiskInput, feeding its additive score and risk level to the
recommendation generator never yields the restructuring recommendation.
Through the actual route, which is wired to the 0-to-100 weighted engine,
the branch is reachable (see the counterexample). -/
theorem C5_restructuring_unreachable_for_additive_scores (inp : RiskInput) :
    "Consider external financial expertise/restructuring"
      ∉ RiskCalculator.get_risk_recommendations
          (RiskScoring.compute_risk_score inp).2.1
          (RiskScoring.compute_risk_score inp).1 inp.sector :=
  restructuring_not_mem_of_le_one _ _ _ (RiskScoring.score_bounds_aux inp).2

/-- C9: for every combination of risk-level string, score and sector the
recommendation generator returns at least two recommendations, and any
risk level other than "High Risk" and "Medium Risk" (including unexpected
strings) falls to the else branch and yields exactly the two Low-Risk
recommendations. -/
theorem C9_recommendations_nonempty (risk_level : String) (score : ℚ)
    (sector : String) :
    2 ≤ (RiskCalculator.get_risk_recommendations risk_level score sector).length
    ∧ (risk_level ≠ "High Risk" → risk_level ≠ "Medium Risk" →
        RiskCalculator.get_risk_recommendations risk_level score sector
          = ["Maintain current financial practices",
             "Annual risk reassessment recommended"]) := by
  unfold RiskCalculator.get_risk_recommendations
  split_ifs <;> simp_all

/-- Witness for C9 at a concrete unexpected risk-level string. -/
theorem C9_recommendations_nonempty_witness :
    2 ≤ (RiskCalculator.get_risk_recommendations "Unrated" 0 "general").length
    ∧ RiskCalculator.get_risk_recommendations "Unrated" 0 "general"
        = ["Maintain current financial practices",
           "Annual risk reassessment recommended"] :=
  ⟨(C9_recommendations_nonempty "Unrated" 0 "general").1,
   (C9_recommendations_nonempty "Unrated" 0 "general").2 (by decide) (by decide)⟩

namespace Models

/-- The output of `dumps` always starts with a bracket, so it is never the
empty string (which the getter would treat as falsy). -/
theorem dumps_ne_empty (v : List String) : dumps v ≠ "" := by
  unfold dumps
  intro h
  have hd := congrArg String.data h
  simp at hd

end Models

/-- C10: the StoredEvaluation explanations serialization round-trips:
assigning any list of strings through the setter and reading the property
back returns that list (including the empty list), and reading the
property of a record whose column was never assigned returns the empty
list. -/
theorem C10_explanations_roundtrip (r : Models.RiskEvaluation)
    (v : List String) :
    (r.set_explanations v).explanations = some v
    ∧ Models.RiskEvaluation.explanations {} = some [] := by
  refine ⟨?_, rfl⟩
  show Models.RiskEvaluation.explanations
      { r with explanations_json := some (Models.dumps v) } = some v
  unfold Models.RiskEvaluation.explanations
  simp only []
  rw [if_pos (Models.dumps_ne_empty v), Models.loads_dumps]
